import Mathlib

/-!  Formal model (shallow embedding) of the nodes-handler dialog state machine
for a message bot.  Source components modelled: NodesHandler, UserStatusList,
UserStatus, NodesHistory, Node, NamedNode, SwitchNode.

Conventions of the embedding:

* Inbound events (updates) are modelled by their text content, a String;
  matcher predicates are arbitrary Boolean functions of it.  The per-user
  session is passed explicitly, so the registry lookup that opens
  check_update and handle_update is factored out (the registry itself is
  modelled separately for the session-uniqueness property).
* Python object identity of handlers is modelled by a numeric id carried by
  every handler; the source's membership tests (the in operator over handler
  lists) compare ids.  Well-formed configurations give distinct handler
  objects distinct ids.
* Mutation is modelled by explicit state passing; outbound side effects
  (chat actions, replies, handler callbacks) are recorded in an output log.
* Python exceptions (AttributeError, IndexError) become an error component
  threaded through results; the unbounded auto-entry chain recursion is run
  on a fuel counter whose exhaustion is a distinct error value, so theorems
  conditioned on an error-free run are independent of the chosen fuel.
-/

/-- Telegram media object kinds a node can reply with. -/
inductive TObj where
  | audio | contact | document | location | photoSize | sticker
  | video | videoNote | voice | venue
deriving DecidableEq

/-- A value acceptable to Node.reply and Node.reply_object (the TO_SEND
union): a string, a telegram object, a tuple, or a list of such values. -/
inductive ReplyItem where
  | str (s : String)
  | obj (o : TObj)
  | tup (elems : List ReplyItem)
  | lst (elems : List ReplyItem)

/-- Python truthiness of a TO_SEND value. -/
def ReplyItem.truthy : ReplyItem → Bool
  | .str s => !s.isEmpty
  | .obj _ => true
  | .tup e => !e.isEmpty
  | .lst e => !e.isEmpty

/-- Class membership in ALLOWED_TELEGRAM_OBJECTS_WITH_CAPTION
(Audio, Document, PhotoSize, Video, Voice). -/
def allowedWithCaption : ReplyItem → Bool
  | .obj .audio | .obj .document | .obj .photoSize | .obj .video | .obj .voice => true
  | _ => false

/-- Outbound keyboard directive attached to a reply (ReplyKeyboardMarkup,
InlineKeyboardMarkup or ReplyKeyboardRemove). -/
inductive Markup where
  | replyKb (kb : List (List String))
  | inlineKb (kb : List (List String))
  | removeKb
deriving DecidableEq

/-- What one reply_* call sends: text (with its parse mode) or a media item. -/
inductive SendKind where
  | text (s : String) (parse_mode : String)
  | media (t : TObj)
deriving DecidableEq

/-- One outbound channel effect: a typing chat action or a sent reply. -/
inductive SendOut where
  | chatAction
  | sent (k : SendKind) (caption : Option ReplyItem) (markup : Option Markup) (silent : Bool)

/-- One observable effect of a run: a handler callback invocation (identified
by the handler id) or an outbound channel effect. -/
inductive Out where
  | ranHandler (hid : Nat)
  | send (o : SendOut)

/-- Python runtime failures surfaced by the source, plus exhaustion of the
fuel that bounds the auto-entry recursion in this model. -/
inductive PyErr where
  | attributeError
  | indexError
  | fuelExhausted
deriving DecidableEq

/-- A dialog node (class Node and its subclasses).  A handler is modelled as
an id (object identity), an acceptance predicate over the update text, and
the value its callback returns (either a plain integer or a Node, since
Node.handle_update inspects whether the result is a Node and whether it
equals the INSIDE_NOT_VALID sentinel -1).  The is_switch flag together with
switch_nodes models the SwitchNode subclass and its handle_inside override;
the name field models the NamedNode subclass. -/
inductive Node : Type where
  | mk (entry_handlers : List (Nat × (String → Bool) × (Int ⊕ Node)))
       (auto_entry : Bool)
       (hello : Option ReplyItem)
       (reply_keyboard : Option (List (List String)))
       (remove_keyboard : Bool)
       (inline_keyboard : Option (List (List String)))
       (inside_handlers : List (Nat × (String → Bool) × (Int ⊕ Node)))
       (inside_fallbacks : List (Nat × (String → Bool) × (Int ⊕ Node)))
       (goodbye : Option ReplyItem)
       (parse_mode : String)
       (switch_on_this : Bool)
       (allow_back : Bool)
       (next_node : Option Node)
       (back_str : Option String)
       (name : Option String)
       (is_switch : Bool)
       (switch_nodes : List Node)

/-- A matcher/handler: object identity id, acceptance predicate, result. -/
abbrev Handler := Nat × (String → Bool) × (Int ⊕ Node)

/-- The id modelling the handler object's identity. -/
def handlerId (h : Handler) : Nat := h.1

/-- The handler's check_update predicate on the update text. -/
def handlerAccepts (h : Handler) : String → Bool := h.2.1

/-- The value the handler's callback returns from handle_update. -/
def handlerRes (h : Handler) : Int ⊕ Node := h.2.2

/-- The source's identity-based membership test (handler in handler_list). -/
def hmem (h : Handler) (l : List Handler) : Bool :=
  l.any (fun g => handlerId g == handlerId h)

def Node.entry_handlers : Node → List Handler
  | .mk e _ _ _ _ _ _ _ _ _ _ _ _ _ _ _ _ => e

def Node.auto_entry : Node → Bool
  | .mk _ a _ _ _ _ _ _ _ _ _ _ _ _ _ _ _ => a

def Node.hello : Node → Option ReplyItem
  | .mk _ _ h _ _ _ _ _ _ _ _ _ _ _ _ _ _ => h

def Node.reply_keyboard_stored : Node → Option (List (List String))
  | .mk _ _ _ rk _ _ _ _ _ _ _ _ _ _ _ _ _ => rk

def Node.remove_keyboard : Node → Bool
  | .mk _ _ _ _ rm _ _ _ _ _ _ _ _ _ _ _ _ => rm

def Node.inline_keyboard : Node → Option (List (List String))
  | .mk _ _ _ _ _ ik _ _ _ _ _ _ _ _ _ _ _ => ik

def Node.inside_handlers : Node → List Handler
  | .mk _ _ _ _ _ _ ih _ _ _ _ _ _ _ _ _ _ => ih

def Node.inside_fallbacks : Node → List Handler
  | .mk _ _ _ _ _ _ _ ifb _ _ _ _ _ _ _ _ _ => ifb

def Node.goodbye : Node → Option ReplyItem
  | .mk _ _ _ _ _ _ _ _ g _ _ _ _ _ _ _ _ => g

def Node.parse_mode : Node → String
  | .mk _ _ _ _ _ _ _ _ _ pm _ _ _ _ _ _ _ => pm

def Node.switch_on_this : Node → Bool
  | .mk _ _ _ _ _ _ _ _ _ _ sw _ _ _ _ _ _ => sw

def Node.allow_back : Node → Bool
  | .mk _ _ _ _ _ _ _ _ _ _ _ ab _ _ _ _ _ => ab

def Node.next_node : Node → Option Node
  | .mk _ _ _ _ _ _ _ _ _ _ _ _ nx _ _ _ _ => nx

def Node.back_str : Node → Option String
  | .mk _ _ _ _ _ _ _ _ _ _ _ _ _ bs _ _ _ => bs

def Node.name : Node → Option String
  | .mk _ _ _ _ _ _ _ _ _ _ _ _ _ _ nm _ _ => nm

def Node.is_switch : Node → Bool
  | .mk _ _ _ _ _ _ _ _ _ _ _ _ _ _ _ isw _ => isw

def Node.switch_nodes : Node → List Node
  | .mk _ _ _ _ _ _ _ _ _ _ _ _ _ _ _ _ sn => sn

/-- Rebuild a node with its back_str replaced (the mutation performed by
NodesHistory.add, which copies the back trigger string from the previous
top onto the pushed node). -/
def Node.withBackStr : Node → Option String → Node
  | .mk e a h rk rm ik ih ifb g pm sw ab nx _ nm isw sn, b =>
      .mk e a h rk rm ik ih ifb g pm sw ab nx b nm isw sn

/-- The reply_keyboard property getter: a deep copy of the stored keyboard
when it is a list, otherwise None.  On the pure values of this embedding a
deep copy is the value itself; the aliasing content of the deep copy is
modelled separately with an explicit object heap below. -/
def Node.reply_keyboard_prop (n : Node) : Option (List (List String)) :=
  n.reply_keyboard_stored

/-- The handler the router elected for the current event: unset (None), a
plain handler, the whole exit-handler list (what check_update stores on an
exit match), or the current node. -/
inductive CurrentHandler where
  | unset
  | handler (h : Handler)
  | handlerList (hs : List Handler)
  | node (n : Node)

/-- Per-user mutable session state (class UserStatus). -/
structure UserStatus where
  nodes_handler_entered : Bool
  current_handler : CurrentHandler
  current_node_handler : Option Handler
  nodes_history : List Node
  display_node : Option Node
  is_inside_current_node : Bool
  next_node : Option Node

/-- UserStatus.__init__. -/
def initUserStatus : UserStatus :=
  { nodes_handler_entered := false
    current_handler := .unset
    current_node_handler := none
    nodes_history := []
    display_node := none
    is_inside_current_node := false
    next_node := none }

/-- The top-level router (class NodesHandler); its handler lists are the
configured matchers. -/
structure NodesHandler where
  root_node : Node
  entry_handlers : List Handler
  back_handlers : List Handler
  back_str : Option String
  fallback_handlers : List Handler
  exit_handlers : List Handler
  allow_reentry : Bool

/-- NodesHistory.can_back: true iff the stack holds more than one node. -/
def NodesHistory.can_back (hist : List Node) : Bool :=
  decide (hist.length > 1)

/-- NodesHistory.back: self._.pop() removes the last element (raising
IndexError on an empty list), then self._[-1] reads the new last element
(raising IndexError when the list became empty).  The successful outcome is
the shrunk stack together with its new top. -/
def NodesHistory.back (hist : List Node) : Option (List Node × Node) :=
  match hist with
  | [] => none
  | _ :: _ =>
    let h2 := hist.dropLast
    match h2.getLast? with
    | none => none
    | some t => some (h2, t)

/-- The back_str mutation inside NodesHistory.add: when the stack has a
current top, the pushed node receives the top's back trigger string. -/
def pushAdjust (hist : List Node) (m : Node) : Node :=
  match hist.getLast? with
  | some c => m.withBackStr c.back_str
  | none => m

/-- NodesHistory.add: propagate the back trigger string from the current
top, then append; returns the new stack and the (possibly mutated) pushed
node, which the session's display_node aliases in the source. -/
def NodesHistory.add (hist : List Node) (m : Node) : List Node × Node :=
  let m2 := pushAdjust hist m
  (hist ++ [m2], m2)

/-- First-of-list fallback (the Python expression a or b on objects). -/
def optOr {α : Type} (a b : Option α) : Option α :=
  match a with
  | some x => some x
  | none => b

/-- Node.check_candidates: test candidates in declared order; the first
whose predicate accepts is recorded as the session's current_node_handler. -/
def check_candidates (s : UserStatus) (u : String) (candidates : List Handler) :
    UserStatus × Bool :=
  match candidates.find? (fun c => handlerAccepts c u) with
  | some c => ({ s with current_node_handler := some c }, true)
  | none => (s, false)

/-- Node.check_update: entry matchers while not inside the node's body,
otherwise in-node matchers then in-node fallbacks. -/
def Node.check_update (n : Node) (s : UserStatus) (u : String) : UserStatus × Bool :=
  if !s.is_inside_current_node then
    check_candidates s u n.entry_handlers
  else
    let r1 := check_candidates s u n.inside_handlers
    if r1.2 then r1 else check_candidates r1.1 u n.inside_fallbacks

/-- NodesHandler.check_update: the precedence protocol.  Entry (when not
entered or re-entry is allowed); then, only when entered: back (guarded by
the current node's allow_back and can_back — note the source dereferences
current() before the guard, so an entered session with an empty history
raises AttributeError), exit (the source stores the whole exit_handlers
list as current_handler), current node, top-level fallbacks. -/
def NodesHandler.check_update (nh : NodesHandler) (s : UserStatus) (u : String) :
    Except PyErr (UserStatus × Bool) :=
  match (if !s.nodes_handler_entered || nh.allow_reentry then
           nh.entry_handlers.find? (fun c => handlerAccepts c u)
         else none) with
  | some c => .ok ({ s with current_handler := .handler c }, true)
  | none =>
    if s.nodes_handler_entered then
      match s.nodes_history.getLast? with
      | none => .error .attributeError
      | some cur =>
        match (if cur.allow_back && NodesHistory.can_back s.nodes_history then
                 nh.back_handlers.find? (fun c => handlerAccepts c u)
               else none) with
        | some c => .ok ({ s with current_handler := .handler c }, true)
        | none =>
          match nh.exit_handlers.find? (fun c => handlerAccepts c u) with
          | some _ => .ok ({ s with current_handler := .handlerList nh.exit_handlers }, true)
          | none =>
            let r := Node.check_update cur s u
            if r.2 then .ok ({ r.1 with current_handler := .node cur }, true)
            else
              match nh.fallback_handlers.find? (fun c => handlerAccepts c u) with
              | some c => .ok ({ r.1 with current_handler := .handler c }, true)
              | none => .ok (r.1, false)
    else .ok (s, false)

/-- Node.reply_object: unwrap a pair-like (list or tuple) value, requiring
exactly two elements with a caption-capable first element class, else raise
AttributeError; then dispatch on the object's type through the source's two
sequential if chains (str / Audio / Contact / Document / Location, then
PhotoSize / Sticker / Venue / Video / VideoNote / Voice), producing the
sends of the call. -/
def reply_object (pm : String) (obj : ReplyItem) (markup : Option Markup)
    (silent : Bool) : Except PyErr (List SendOut) :=
  let dispatch : ReplyItem → Option ReplyItem → List SendOut := fun o caption =>
    let first : List SendOut :=
      match o with
      | .str s => [.sent (.text s pm) none markup silent]
      | .obj .audio => [.sent (.media .audio) caption markup silent]
      | .obj .contact => [.sent (.media .contact) none markup silent]
      | .obj .document => [.sent (.media .document) caption markup silent]
      | .obj .location => [.sent (.media .location) none markup silent]
      | _ => []
    let second : List SendOut :=
      match o with
      | .obj .photoSize => [.sent (.media .photoSize) caption markup silent]
      | .obj .sticker => [.sent (.media .sticker) none markup silent]
      | .obj .venue => [.sent (.media .venue) none markup silent]
      | .obj .video => [.sent (.media .video) caption markup silent]
      | .obj .videoNote => [.sent (.media .videoNote) none markup silent]
      | .obj .voice => [.sent (.media .voice) caption markup silent]
      | _ => []
    first ++ second
  match obj with
  | .tup elems =>
    match elems with
    | [o, c] => if allowedWithCaption o then .ok (dispatch o (some c)) else .error .attributeError
    | _ => .error .attributeError
  | .lst elems =>
    match elems with
    | [o, c] => if allowedWithCaption o then .ok (dispatch o (some c)) else .error .attributeError
    | _ => .error .attributeError
  | o => .ok (dispatch o none)

/-- The loop of Node.reply over all but the last element of a list payload:
each element is sent silently followed by a typing chat action; an error
aborts the remainder (the sends already performed are kept). -/
def replyInitItems (pm : String) (items : List ReplyItem) :
    List SendOut × Option PyErr :=
  match items with
  | [] => ([], none)
  | x :: xs =>
    match reply_object pm x none true with
    | .error e => ([], some e)
    | .ok o =>
      let r := replyInitItems pm xs
      (o ++ [.chatAction] ++ r.1, r.2)

/-- Node.reply: a list payload sends every element but the last silently
(with typing actions in between) and the last with the keyboard directive;
an empty list raises IndexError at the trailing to_send[-1] access; a
non-list payload goes through reply_object directly. -/
def replyPayload (pm : String) (payload : ReplyItem) (markup : Option Markup) :
    List SendOut × Option PyErr :=
  match payload with
  | .lst items =>
    match items.getLast? with
    | none => ([], some .indexError)
    | some last =>
      let r := replyInitItems pm items.dropLast
      match r.2 with
      | some e => (r.1, some e)
      | none =>
        match reply_object pm last markup false with
        | .ok o2 => (r.1 ++ o2, none)
        | .error e => (r.1, some e)
  | item =>
    match reply_object pm item markup false with
    | .ok o => (o, none)
    | .error e => ([], some e)

/-- A guarded send (the source's if self.hello: / if self.goodbye: pattern,
including Python truthiness of the payload). -/
def maybeReply (pm : String) (p : Option ReplyItem) (markup : Option Markup) :
    List SendOut × Option PyErr :=
  match p with
  | some x => if x.truthy then replyPayload pm x markup else ([], none)
  | none => ([], none)

/-- Node.add_keyboard_button with the default max_row_len = 2: append the
button to the last row when it has room, else start a new row. -/
def add_keyboard_button (kb : List (List String)) (btn : String) :
    List (List String) :=
  match kb.getLast? with
  | some lastRow =>
    if lastRow.length < 2 then kb.dropLast ++ [lastRow ++ [btn]]
    else kb ++ [[btn]]
  | none => kb ++ [[btn]]

/-- The reply markup Node.handle_entry builds for the greeting: a reply
keyboard (with a back button appended iff allow_back, the history can go
back and a back trigger string is configured), else an inline keyboard,
overridden by a keyboard removal directive when remove_keyboard is set.
Python truthiness makes empty keyboards count as absent. -/
def entryMarkup (n : Node) (hist : List Node) : Option Markup :=
  let rm : Option Markup :=
    match n.reply_keyboard_prop with
    | some kb =>
      if kb.isEmpty then none
      else
        let kb :=
          match n.back_str with
          | some bs =>
            if n.allow_back && NodesHistory.can_back hist && !bs.isEmpty then
              add_keyboard_button kb bs
            else kb
          | none => kb
        some (.replyKb kb)
    | none => none
  let rm : Option Markup :=
    match rm with
    | some x => some x
    | none =>
      match n.inline_keyboard with
      | some ik => if ik.isEmpty then none else some (.inlineKb ik)
      | none => none
  if n.remove_keyboard then some .removeKb else rm

/-- Result of running a lifecycle step: the session state, the output log,
and the error that aborted the run, if any. -/
structure Res where
  s : UserStatus
  log : List Out
  err : Option PyErr

mutual

/-- Node.handle_entry: mark the session inside the node, send the greeting
with the entry markup when configured, and when the node has no in-node
matchers at all fall through immediately to the inside lifecycle. -/
def Node.handle_entry (fuel : Nat) (n : Node) (s : UserStatus) (u : String)
    (log : List Out) : Res :=
  match fuel with
  | 0 => ⟨s, log, some .fuelExhausted⟩
  | fuel + 1 =>
    let s := { s with is_inside_current_node := true }
    let r := maybeReply n.parse_mode n.hello (entryMarkup n s.nodes_history)
    let log := log ++ r.1.map Out.send
    match r.2 with
    | some e => ⟨s, log, some e⟩
    | none =>
      if n.inside_handlers.isEmpty then Node.handle_inside fuel n s u log
      else ⟨s, log, none⟩

/-- The dynamically dispatched inside lifecycle: SwitchNode.handle_inside
first records as pending next node the first child whose entry matchers
contain the elected in-node handler, then delegates to the base Node
behaviour. -/
def Node.handle_inside (fuel : Nat) (n : Node) (s : UserStatus) (u : String)
    (log : List Out) : Res :=
  match fuel with
  | 0 => ⟨s, log, some .fuelExhausted⟩
  | fuel + 1 =>
    let s :=
      if n.is_switch then
        match n.switch_nodes.find? (fun c =>
            match s.current_node_handler with
            | some h => hmem h c.entry_handlers
            | none => false) with
        | some c => { s with next_node := some c }
        | none => s
      else s
    Node.handle_inside_base fuel n s u log

/-- The base Node.handle_inside: send the goodbye payload, leave the node's
body, choose the next node (the session's pending next node, else the
static successor), push it onto history when it participates in history,
clear the pending next node, and when the chosen node auto-enters run its
first entry-handler callback (only when this node's static successor field
is set and the chosen node has entry handlers) followed by its entry
lifecycle; with no next node, re-enter the body when this node does not
participate in history. -/
def Node.handle_inside_base (fuel : Nat) (n : Node) (s : UserStatus) (u : String)
    (log : List Out) : Res :=
  match fuel with
  | 0 => ⟨s, log, some .fuelExhausted⟩
  | fuel + 1 =>
    let r := maybeReply n.parse_mode n.goodbye none
    let log := log ++ r.1.map Out.send
    match r.2 with
    | some e => ⟨s, log, some e⟩
    | none =>
      let s := { s with is_inside_current_node := false }
      match optOr s.next_node n.next_node with
      | some m =>
        let hm : List Node × Node :=
          if m.switch_on_this then NodesHistory.add s.nodes_history m
          else (s.nodes_history, m)
        let m := hm.2
        let s := { s with display_node := some m,
                          nodes_history := hm.1,
                          next_node := none }
        if m.auto_entry then
          let log :=
            match n.next_node, m.entry_handlers with
            | some _, h0 :: _ => log ++ [Out.ranHandler (handlerId h0)]
            | _, _ => log
          Node.handle_entry fuel m s u log
        else ⟨s, log, none⟩
      | none =>
        let s := if !n.switch_on_this then { s with is_inside_current_node := true } else s
        ⟨{ s with next_node := none }, log, none⟩

end

/-- Node.handle_update: run the elected in-node handler's callback; a Node
result becomes the session's pending next node; the INSIDE_NOT_VALID
sentinel or an elected in-node fallback re-runs the display node's first
entry-handler callback and entry lifecycle; an elected entry matcher runs
this node's entry lifecycle; an elected in-node matcher runs this node's
inside lifecycle. -/
def Node.handle_update (fuel : Nat) (n : Node) (s : UserStatus) (u : String)
    (log : List Out) : Res :=
  match s.current_node_handler with
  | none => ⟨s, log, some .attributeError⟩
  | some h =>
    let log := log ++ [Out.ranHandler (handlerId h)]
    let r := handlerRes h
    let s :=
      match r with
      | .inr nd => { s with next_node := some nd }
      | .inl _ => s
    if (match r with | .inl v => v == -1 | .inr _ => false) || hmem h n.inside_fallbacks then
      match s.display_node with
      | none => ⟨s, log, some .attributeError⟩
      | some d =>
        let log :=
          match d.entry_handlers with
          | h0 :: _ => log ++ [Out.ranHandler (handlerId h0)]
          | [] => log
        Node.handle_entry fuel d s u log
    else if hmem h n.entry_handlers then Node.handle_entry fuel n s u log
    else if hmem h n.inside_handlers then Node.handle_inside fuel n s u log
    else ⟨s, log, none⟩

/-- Lines 104-106 of NodesHandler.handle_update, shared by the entry and
back branches: run the display node's last entry-handler callback when it
has any, then the entry lifecycle of the history's current node. -/
def afterNav (fuel : Nat) (s : UserStatus) (u : String) (log : List Out) : Res :=
  match s.display_node with
  | none => ⟨s, log, some .attributeError⟩
  | some d =>
    let log :=
      match d.entry_handlers.getLast? with
      | some hl => log ++ [Out.ranHandler (handlerId hl)]
      | none => log
    match s.nodes_history.getLast? with
    | none => ⟨s, log, some .attributeError⟩
    | some cur => Node.handle_entry fuel cur s u log

/-- NodesHandler.handle_update: always signal a typing chat action first,
then run the recorded current handler.  An elected entry handler enters the
subsystem, displays the root and resets history to it; an elected back
handler pops history, displays the new top and marks the session inside it
(both then run the shared navigation epilogue); an elected exit handler
marks the session as not entered.  Note that on the exit path check_update
stored the whole exit-handler list, and a Python list has no handle_update
attribute, so that path raises AttributeError here before any session
change. -/
def NodesHandler.handle_update (fuel : Nat) (nh : NodesHandler) (s : UserStatus)
    (u : String) (log : List Out) : Res :=
  let log := log ++ [Out.send SendOut.chatAction]
  match s.current_handler with
  | .unset => ⟨s, log, some .attributeError⟩
  | .handlerList _ => ⟨s, log, some .attributeError⟩
  | .node nd => Node.handle_update fuel nd s u log
  | .handler h =>
    let log := log ++ [Out.ranHandler (handlerId h)]
    if hmem h nh.entry_handlers || hmem h nh.back_handlers then
      if hmem h nh.entry_handlers then
        let s := { s with nodes_handler_entered := true,
                          display_node := some nh.root_node,
                          nodes_history := [nh.root_node] }
        afterNav fuel s u log
      else
        match NodesHistory.back s.nodes_history with
        | none => ⟨s, log, some .indexError⟩
        | some p =>
          let s := { s with nodes_history := p.1, display_node := some p.2,
                            is_inside_current_node := true }
          afterNav fuel s u log
    else if hmem h nh.exit_handlers then
      ⟨{ s with nodes_handler_entered := false }, log, none⟩
    else ⟨s, log, none⟩

/-- The default parse mode of Node.__init__ (ParseMode.MARKDOWN). -/
def parseModeMarkdown : String := "Markdown"

/-- NamedNode.__init__: a node whose single entry handler is a RegexHandler
matching exactly the node's name (the escaped name anchored on both sides),
whose callback defaults to returning None (modelled by the integer 0, which
is neither a Node nor the INSIDE_NOT_VALID sentinel). -/
def mkNamedNode (nm : String) (entry_hid : Nat) (hello : Option ReplyItem)
    (reply_keyboard : Option (List (List String))) (remove_keyboard : Bool)
    (inline_keyboard : Option (List (List String)))
    (inside_handlers inside_fallbacks : List Handler) (goodbye : Option ReplyItem)
    (switch_on_this allow_back : Bool) : Node :=
  .mk [(entry_hid, fun u => u == nm, Sum.inl 0)] true hello reply_keyboard
      remove_keyboard inline_keyboard inside_handlers inside_fallbacks goodbye
      parseModeMarkdown switch_on_this allow_back none none (some nm) false []

/-- Accumulator of the SwitchNode.__init__ loop: the flattened child list,
the keyboard under construction (present iff keyboard_from_names), and the
gathered in-node handlers. -/
structure SwAcc where
  flat : List Node
  kb : Option (List (List String))
  ih : List Handler

/-- Inner loop body of SwitchNode.__init__: append the child, append its
name to the keyboard's current row when the keyboard is being built and the
child is a NamedNode, and append the child's entry handlers to the in-node
handler list. -/
def switchChildStep (acc : SwAcc) (c : Node) : SwAcc :=
  { flat := acc.flat ++ [c]
    kb :=
      match acc.kb, c.name with
      | some k, some nm =>
        some (match k.getLast? with
              | some lastRow => k.dropLast ++ [lastRow ++ [nm]]
              | none => k ++ [[nm]])
      | k, _ => k
    ih := acc.ih ++ c.entry_handlers }

/-- Outer loop body of SwitchNode.__init__: open a new keyboard row for the
declared row of children, then process its children in order. -/
def switchRowStep (acc : SwAcc) (row : List Node) : SwAcc :=
  let acc := { acc with kb := match acc.kb with
                              | some k => some (k ++ [[]])
                              | none => none }
  row.foldl switchChildStep acc

/-- SwitchNode.__init__: flatten the declared grid of children row-major,
derive the in-node matcher list from the children's entry matchers, build
the keyboard from NamedNode children's names when requested, and construct
the underlying Node with the source's defaults (auto-entry on, no static
successor, no in-node fallbacks). -/
def mkSwitchNode (entry_handlers : List Handler) (hello : Option ReplyItem)
    (switch_nodes : List (List Node)) (keyboard_from_names : Bool)
    (remove_keyboard : Bool) (goodbye : Option ReplyItem)
    (switch_on_this allow_back : Bool) : Node :=
  let acc := switch_nodes.foldl switchRowStep
      { flat := [], kb := if keyboard_from_names then some [] else none, ih := [] }
  .mk entry_handlers true hello acc.kb remove_keyboard none acc.ih [] goodbye
      parseModeMarkdown switch_on_this allow_back none none none true acc.flat

/-- The per-user session registry (class UserStatusList): an
insertion-ordered association list keyed by user id (dict semantics: at
most one binding per key, first binding wins on lookup). -/
abbrev UserStatusRegistry := List (Nat × UserStatus)

/-- UserStatusList.__contains__. -/
def regContains (l : UserStatusRegistry) (u : Nat) : Bool :=
  l.any (fun p => p.1 == u)

/-- Dict lookup self._[user_id] (the first binding for the key). -/
def regLookup (l : UserStatusRegistry) (u : Nat) : Option UserStatus :=
  (l.find? (fun p => p.1 == u)).map (fun p => p.2)

/-- UserStatusList.__getitem__: lazily insert a fresh UserStatus when the
user id is unseen, then return the stored session for the id.  The getD
default is never reached: after the insert the id is always present. -/
def regGet (l : UserStatusRegistry) (u : Nat) : UserStatusRegistry × UserStatus :=
  let l2 := if regContains l u then l else l ++ [(u, initUserStatus)]
  (l2, (regLookup l2 u).getD initUserStatus)

/-- An explicit object heap for keyboard values, used to state the aliasing
content of the reply_keyboard property's deep copy: row objects (lists of
button strings) live in an arena addressed by index, and keyboard objects
(lists of row addresses) in a second arena. -/
structure KbHeap where
  rows : List (List String)
  kbs : List (List Nat)

/-- Read a row object. -/
def KbHeap.readRow (h : KbHeap) (a : Nat) : Option (List String) :=
  h.rows[a]?

/-- Read a keyboard object (its list of row addresses). -/
def KbHeap.readKb (h : KbHeap) (a : Nat) : Option (List Nat) :=
  h.kbs[a]?

/-- Resolve a list of row addresses to row values, failing on a dangling
address. -/
def KbHeap.resolveRows (h : KbHeap) : List Nat → Option (List (List String))
  | [] => some []
  | a :: t =>
    match h.readRow a, KbHeap.resolveRows h t with
    | some r, some rest => some (r :: rest)
    | _, _ => none

/-- The structural value of the keyboard object at an address. -/
def KbHeap.resolve (h : KbHeap) (a : Nat) : Option (List (List String)) :=
  match h.readKb a with
  | some rs => h.resolveRows rs
  | none => none

/-- In-place mutation of a row object (e.g. appending a button to a row of
a keyboard returned by the property). -/
def KbHeap.writeRow (h : KbHeap) (a : Nat) (v : List String) : KbHeap :=
  { h with rows := h.rows.set a v }

/-- The copy.deepcopy of the keyboard object at an address: allocate fresh row
objects with the same contents and a fresh keyboard object pointing at
them; returns the extended heap and the new keyboard's address. -/
def deepcopyKb (h : KbHeap) (a : Nat) : KbHeap × Option Nat :=
  match h.readKb a with
  | none => (h, none)
  | some rs =>
    let newRows := rs.map (fun ra => (h.readRow ra).getD [])
    let newAddrs := List.range' h.rows.length rs.length
    ({ rows := h.rows ++ newRows, kbs := h.kbs ++ [newAddrs] }, some h.kbs.length)

/-- The reply_keyboard property getter over the heap: a deep copy of the
stored keyboard when one is stored (isinstance list), else None. -/
def reply_keyboard_get (h : KbHeap) (stored : Option Nat) : KbHeap × Option Nat :=
  match stored with
  | some a => deepcopyKb h a
  | none => (h, none)

/-- Modelled from the spec: one precedence level of the matches protocol —
a guard, an ordered matcher list, and the session produced when one of the
matchers is the first to accept the event. -/
structure Level where
  guard : Bool
  matchers : List Handler
  apply : Handler → UserStatus

/-- Modelled from the spec: a level elects the first accepting matcher when
its guard holds. -/
def levelElect (u : String) (lv : Level) : Option UserStatus :=
  (if lv.guard then lv.matchers.find? (fun c => handlerAccepts c u) else none).map lv.apply

/-- Modelled from the spec: first level whose first matcher accepts wins. -/
def firstElect (u : String) : List Level → Option UserStatus
  | [] => none
  | lv :: t =>
    match levelElect u lv with
    | some s2 => some s2
    | none => firstElect u t

/-- Entry level: guarded by the session not being entered or re-entry being
allowed; records the accepting matcher. -/
def entryLevel (nh : NodesHandler) (s : UserStatus) : Level :=
  { guard := !s.nodes_handler_entered || nh.allow_reentry
    matchers := nh.entry_handlers
    apply := fun c => { s with current_handler := .handler c } }

/-- Back level: guarded by the current node allowing back and the history
being able to go back; records the accepting matcher. -/
def backLevel (nh : NodesHandler) (s : UserStatus) (cur : Node) : Level :=
  { guard := cur.allow_back && NodesHistory.can_back s.nodes_history
    matchers := nh.back_handlers
    apply := fun c => { s with current_handler := .handler c } }

/-- Exit level: always tested once entered; on a match the source records
the whole exit-handler list, not the accepting matcher. -/
def exitLevel (nh : NodesHandler) (s : UserStatus) : Level :=
  { guard := true
    matchers := nh.exit_handlers
    apply := fun _ => { s with current_handler := .handlerList nh.exit_handlers } }

/-- Current-node level: the node's entry matchers while outside its body,
else its in-node matchers then in-node fallbacks; records the node as the
session's current handler and the accepting matcher as the node-level
elected handler. -/
def nodeLevel (s : UserStatus) (cur : Node) : Level :=
  { guard := true
    matchers := if !s.is_inside_current_node then cur.entry_handlers
                else cur.inside_handlers ++ cur.inside_fallbacks
    apply := fun c => { s with current_node_handler := some c,
                               current_handler := .node cur } }

/-- Fallback level: the router's top-level fallback matchers. -/
def fallbackLevel (nh : NodesHandler) (s : UserStatus) : Level :=
  { guard := true
    matchers := nh.fallback_handlers
    apply := fun c => { s with current_handler := .handler c } }

/-- Modelled from the spec (amended): the matches precedence protocol as a
flat first-match-wins scan — entry first; then, only when the session is
entered (raising when the history is unexpectedly empty), back, exit,
current node and fallback; no match returns false with the session
unchanged. -/
def specCheckUpdate (nh : NodesHandler) (s : UserStatus) (u : String) :
    Except PyErr (UserStatus × Bool) :=
  match levelElect u (entryLevel nh s) with
  | some s2 => .ok (s2, true)
  | none =>
    if s.nodes_handler_entered then
      match s.nodes_history.getLast? with
      | none => .error .attributeError
      | some cur =>
        match firstElect u
            [backLevel nh s cur, exitLevel nh s, nodeLevel s cur, fallbackLevel nh s] with
        | some s2 => .ok (s2, true)
        | none => .ok (s, false)
    else .ok (s, false)

/-- A matcher that never accepts, with a distinctive id, used as an inert
in-node handler in concrete scenarios. -/
def dummyIH (k : Nat) : Handler := (k, fun _ => false, Sum.inl 0)

/-- A leaf node with no entry matchers, one inert in-node matcher, no
payloads and no successor. -/
def leafNode (k : Nat) (bs : Option String) : Node :=
  .mk [] true none none false none [dummyIH k] [] none parseModeMarkdown
    true true none bs none false []

/-- The exit matcher of the exit scenario: accepts exactly the text
representing the exit command. -/
def exitH : Handler := (2, fun u => u == "exit", Sum.inl 0)

/-- Router of the exit scenario: one exit handler, nothing else. -/
def nhExit : NodesHandler :=
  { root_node := leafNode 40 none
    entry_handlers := []
    back_handlers := []
    back_str := none
    fallback_handlers := []
    exit_handlers := [exitH]
    allow_reentry := false }

/-- Entered session of the exit scenario: at the root, inside its body. -/
def sExit : UserStatus :=
  { nodes_handler_entered := true
    current_handler := .unset
    current_node_handler := none
    nodes_history := [leafNode 40 none]
    display_node := some (leafNode 40 none)
    is_inside_current_node := true
    next_node := none }

/-- The session elected by the exit match of the exit scenario. -/
def sExit2 : UserStatus := { sExit with current_handler := .handlerList [exitH] }

/-- The back matcher of the back scenario (the RegexHandler the router
builds from the back trigger string): accepts exactly the back text. -/
def backH : Handler := (1, fun u => u == "back", Sum.inl 0)

/-- Three history-participating nodes of the back scenario. -/
def nodeA4 : Node := leafNode 41 (some "back")

def nodeB4 : Node := leafNode 42 (some "back")

def nodeC4 : Node := leafNode 43 (some "back")

/-- Router of the back scenario: only a back handler. -/
def nhBack : NodesHandler :=
  { root_node := nodeA4
    entry_handlers := []
    back_handlers := [backH]
    back_str := some "back"
    fallback_handlers := []
    exit_handlers := []
    allow_reentry := false }

/-- Session of the back scenario after entering at root A and navigating
forward through history-participating B and C. -/
def s40 : UserStatus :=
  { nodes_handler_entered := true
    current_handler := .unset
    current_node_handler := none
    nodes_history := [nodeA4, nodeB4, nodeC4]
    display_node := some nodeC4
    is_inside_current_node := true
    next_node := none }

/-- Session after the first back event was matched. -/
def s41 : UserStatus := { s40 with current_handler := .handler backH }

/-- Result of handling the first back event. -/
def r41 : Res := NodesHandler.handle_update 10 nhBack s41 "back" []

/-- Session after the second back event was matched. -/
def s43 : UserStatus := { r41.s with current_handler := .handler backH }

/-- Result of handling the second back event. -/
def r43 : Res := NodesHandler.handle_update 10 nhBack s43 "back" []

/-- The entry matcher of the menu child named y. -/
def yEntryH : Handler := (21, fun u => u == "y", Sum.inl 0)

/-- Menu child x of the menu scenario. -/
def nodeX6 : Node :=
  mkNamedNode "x" 20 none none false none [dummyIH 30] [] none true true

/-- Menu child y of the menu scenario, with a greeting. -/
def nodeY6 : Node :=
  mkNamedNode "y" 21 (some (.str "hy")) none false none [dummyIH 31] [] none true true

/-- Menu child z of the menu scenario. -/
def nodeZ6 : Node :=
  mkNamedNode "z" 22 none none false none [dummyIH 32] [] none true true

/-- The menu (switch) node of the menu scenario, children [x, y, z]. -/
def nodeS6 : Node :=
  mkSwitchNode [] none [[nodeX6, nodeY6, nodeZ6]] true false none true true

/-- Session displaying the menu node, inside its body. -/
def s60 : UserStatus :=
  { nodes_handler_entered := true
    current_handler := .unset
    current_node_handler := none
    nodes_history := [nodeS6]
    display_node := some nodeS6
    is_inside_current_node := true
    next_node := none }

/-- Session after the menu matched the event against y's entry matcher. -/
def s61 : UserStatus := { s60 with current_node_handler := some yEntryH }

/-- Result of the menu node handling the event electing y. -/
def r6 : Res := Node.handle_update 10 nodeS6 s61 "y" []

/-- Number of non-silent and silent text replies with the given text. -/
def sentTextCount (log : List Out) (t : String) : Nat :=
  log.countP (fun o =>
    match o with
    | .send (.sent (.text s _) _ _ _) => s == t
    | _ => false)

/-- The entry-handler callback of the override target in the C3 scenario. -/
def cbH : Handler := (5, fun _ => false, Sum.inl 0)

/-- Override target of the C3 scenario: auto-entry, one entry handler, an
inert in-node handler, not participating in history. -/
def nodeM3 : Node :=
  .mk [cbH] true none none false none [dummyIH 51] [] none parseModeMarkdown
    false true none none none false []

/-- Static successor of the C3 scenario's node. -/
def nodeK3 : Node := leafNode 52 none

/-- The node whose inside lifecycle runs in the C3 scenario: it has a
static successor, while the session carries a pending next-node override. -/
def nodeN3 : Node :=
  .mk [] true none none false none [dummyIH 53] [] none parseModeMarkdown
    true true (some nodeK3) none none false []

/-- Session of the C3 scenario: a pending next-node override is set. -/
def s30 : UserStatus :=
  { nodes_handler_entered := true
    current_handler := .unset
    current_node_handler := none
    nodes_history := []
    display_node := some nodeN3
    is_inside_current_node := true
    next_node := some nodeM3 }

/-- Result of the C3 scenario's inside lifecycle. -/
def r3 : Res := Node.handle_inside 10 nodeN3 s30 "u" []

/-- Terminal leaf of the C7 witness scenario: no successor, not
participating in history. -/
def nodeT7 : Node :=
  .mk [] true none none false none [dummyIH 71] [] none parseModeMarkdown
    false true none none none false []

/-- Session of the C7 witness scenario. -/
def s70 : UserStatus :=
  { nodes_handler_entered := true
    current_handler := .unset
    current_node_handler := none
    nodes_history := [nodeT7]
    display_node := some nodeT7
    is_inside_current_node := true
    next_node := none }

/-- A handler-invocation entry never occurs among mapped channel sends. -/
theorem ranHandler_not_mem_map_send (k : Nat) (l : List SendOut) :
    Out.ranHandler k ∉ l.map Out.send := by
  simp

/-- The find? scan over an append when the first part has no match. -/
theorem find?_append_of_none {α : Type} {p : α → Bool} {l1 l2 : List α}
    (h : l1.find? p = none) : (l1 ++ l2).find? p = l2.find? p := by
  rw [List.find?_append, h, Option.none_or]

/-- C5: for every navigation history, can_back holds exactly when the stack
is deeper than one entry, and back (pop) removes the top and returns the
new top exactly when a previous entry exists, failing (an IndexError in the
source) at depth one or zero instead of succeeding. -/
theorem C5_can_back_iff_and_back_contract (hist : List Node) :
    (NodesHistory.can_back hist = true ↔ hist.length > 1) ∧
    NodesHistory.back hist
      = (hist.dropLast.getLast?).map (fun t => (hist.dropLast, t)) ∧
    (NodesHistory.back hist = none ↔ hist.length ≤ 1) := by
  have h2 : NodesHistory.back hist
      = (hist.dropLast.getLast?).map (fun t => (hist.dropLast, t)) := by
    cases hist with
    | nil => rfl
    | cons a l =>
      cases h : (a :: l).dropLast.getLast? with
      | none => simp only [NodesHistory.back, h, Option.map_none']
      | some t => simp only [NodesHistory.back, h, Option.map_some']
  refine ⟨by simp [NodesHistory.can_back], h2, ?_⟩
  rw [h2, Option.map_eq_none', List.getLast?_eq_none_iff]
  constructor
  · intro h
    have := congrArg List.length h
    simp only [List.length_dropLast, List.length_nil] at this
    omega
  · intro h
    have hlen : hist.dropLast.length = 0 := by
      simp only [List.length_dropLast]
      omega
    exact List.length_eq_zero.mp hlen

/-- C9: reply_object fails fast with AttributeError on a malformed pair
payload — a pair-like (tuple or list) value that is not exactly two
elements, or whose first element's class does not support captions — and
the error return carries no sends, so nothing is silently dropped. -/
theorem C9_reply_object_rejects_malformed_pairs (pm : String)
    (markup : Option Markup) (silent : Bool) :
    (∀ a c : ReplyItem, allowedWithCaption a = false →
        reply_object pm (.tup [a, c]) markup silent = .error .attributeError) ∧
    (∀ elems : List ReplyItem, elems.length ≠ 2 →
        reply_object pm (.tup elems) markup silent = .error .attributeError) ∧
    (∀ a c : ReplyItem, allowedWithCaption a = false →
        reply_object pm (.lst [a, c]) markup silent = .error .attributeError) := by
  refine ⟨?_, ?_, ?_⟩
  · intro a c h
    simp [reply_object, h]
  · intro elems h
    match elems with
    | [] => rfl
    | [a] => rfl
    | [a, b] => exact absurd rfl h
    | a :: b :: c :: t => rfl
  · intro a c h
    simp [reply_object, h]

/-- Witness for C9 at concrete malformed payloads: a captioned sticker (a
class with no caption support) and a one-element tuple. -/
theorem C9_reply_object_rejects_malformed_pairs_witness :
    reply_object "" (.tup [.obj .sticker, .str "cap"]) none false
      = .error .attributeError ∧
    reply_object "" (.tup [.str "lonely"]) none false
      = .error .attributeError :=
  ⟨(C9_reply_object_rejects_malformed_pairs "" none false).1 _ _ rfl,
   (C9_reply_object_rejects_malformed_pairs "" none false).2.1 [.str "lonely"] (by decide)⟩

/-- When the membership test fails, find? over the association list finds
nothing. -/
theorem regFind_eq_none_of_not_contains {l : UserStatusRegistry} {u : Nat}
    (h : regContains l u = false) : l.find? (fun p => p.1 == u) = none := by
  unfold regContains at h
  rw [List.find?_eq_none]
  intro p hp hpu
  have hx : (List.any l fun p => p.1 == u) = true := List.any_eq_true.mpr ⟨p, hp, hpu⟩
  rw [h] at hx
  exact Bool.noConfusion hx

/-- C8: the registry creates a session only for an unseen user id, and
indexing again with the same id returns the identical registry (hence the
same size) and the very session stored by the first access. -/
theorem C8_registry_at_most_one_session (l : UserStatusRegistry) (u : Nat) :
    (regContains l u = true → (regGet l u).1 = l) ∧
    (regContains l u = false →
       (regGet l u).1 = l ++ [(u, initUserStatus)] ∧
       (regGet l u).2 = initUserStatus) ∧
    regGet (regGet l u).1 u = ((regGet l u).1, (regGet l u).2) := by
  by_cases hc : regContains l u = true
  · refine ⟨fun _ => by simp [regGet, hc], fun hfalse => by rw [hc] at hfalse; exact Bool.noConfusion hfalse, ?_⟩
    simp [regGet, hc]
  · have hc' : regContains l u = false := Bool.eq_false_iff.mpr hc
    have hcontains2 : regContains (l ++ [(u, initUserStatus)]) u = true := by
      unfold regContains
      rw [List.any_append]
      simp [regContains] at hc' ⊢
    have hlook2 : regLookup (l ++ [(u, initUserStatus)]) u = some initUserStatus := by
      unfold regLookup
      rw [find?_append_of_none (regFind_eq_none_of_not_contains hc')]
      simp
    refine ⟨fun htrue => by rw [hc'] at htrue; exact Bool.noConfusion htrue, fun _ => ?_, ?_⟩
    · constructor
      · simp [regGet, hc']
      · simp [regGet, hc', hlook2]
    · have h1 : (regGet l u).1 = l ++ [(u, initUserStatus)] := by simp [regGet, hc']
      have h2 : (regGet l u).2 = initUserStatus := by simp [regGet, hc', hlook2]
      rw [h1, h2]
      simp [regGet, hcontains2, hlook2]

/-- Witness for C8 at a concrete registry: an empty registry followed by two
accesses for user 7. -/
theorem C8_registry_at_most_one_session_witness :
    regContains ([] : UserStatusRegistry) 7 = false ∧
    (regGet ([] : UserStatusRegistry) 7).1 = [(7, initUserStatus)] ∧
    regGet (regGet ([] : UserStatusRegistry) 7).1 7
      = ((regGet ([] : UserStatusRegistry) 7).1, (regGet ([] : UserStatusRegistry) 7).2) :=
  ⟨rfl, ((C8_registry_at_most_one_session [] 7).2.1 rfl).1,
    (C8_registry_at_most_one_session [] 7).2.2⟩

/-- Node.check_update tests its entry matchers while outside the body and
its in-node matchers followed by in-node fallbacks while inside, recording
the first accepting matcher; no match leaves the session unchanged. -/
theorem node_check_update_eq (n : Node) (s : UserStatus) (u : String) :
    Node.check_update n s u =
      match (if !s.is_inside_current_node then n.entry_handlers
             else n.inside_handlers ++ n.inside_fallbacks).find?
              (fun c => handlerAccepts c u) with
      | some c => ({ s with current_node_handler := some c }, true)
      | none => (s, false) := by
  unfold Node.check_update check_candidates
  by_cases hin : s.is_inside_current_node = true
  · simp only [hin, Bool.not_true, Bool.false_eq_true, if_false, List.find?_append]
    cases h1 : n.inside_handlers.find? (fun c => handlerAccepts c u) with
    | some c => simp [Option.or]
    | none =>
      cases h2 : n.inside_fallbacks.find? (fun c => handlerAccepts c u) <;>
        simp_all [Option.or]
  · have hin' : s.is_inside_current_node = false := Bool.eq_false_iff.mpr hin
    simp only [hin', Bool.not_false, if_true]

/-- C1 (amended): the router's matches operation implements exactly the
flat first-match-wins precedence protocol over the levels entry (only when
not entered or re-entry is allowed), then — only when entered — back
(guarded by allow_back and can_back), exit, current node, top-level
fallback; it records the elected handler per level (the accepting matcher
at the entry, back and fallback levels; the whole exit-handler list at the
exit level; the current node, with the accepting matcher as node-level
elected handler, at the current-node level), and returns false with the
session unchanged when no level matches. -/
theorem C1_check_update_refines_precedence_protocol
    (nh : NodesHandler) (s : UserStatus) (u : String) :
    NodesHandler.check_update nh s u = specCheckUpdate nh s u := by
  unfold NodesHandler.check_update specCheckUpdate
  simp only [levelElect, firstElect, entryLevel, backLevel, exitLevel, nodeLevel,
    fallbackLevel]
  cases hentry : (if (!s.nodes_handler_entered || nh.allow_reentry) = true then
      nh.entry_handlers.find? (fun c => handlerAccepts c u) else none) with
  | some c => simp only [hentry, Option.map_some']
  | none =>
    simp only [hentry, Option.map_none']
    by_cases hent : s.nodes_handler_entered = true
    · simp only [hent, if_true]
      cases hcur : s.nodes_history.getLast? with
      | none => rfl
      | some cur =>
        cases hback : (if (cur.allow_back && NodesHistory.can_back s.nodes_history) = true
            then nh.back_handlers.find? (fun c => handlerAccepts c u) else none) with
        | some c => simp only [hback, Option.map_some']
        | none =>
          simp only [hback, Option.map_none']
          cases hexit : nh.exit_handlers.find? (fun c => handlerAccepts c u) with
          | some c => simp only [hexit, if_true, Option.map_some']
          | none =>
            simp only [hexit, Option.map_none', if_true]
            rw [node_check_update_eq]
            cases hnode : (if !s.is_inside_current_node then cur.entry_handlers
                else cur.inside_handlers ++ cur.inside_fallbacks).find?
                  (fun c => handlerAccepts c u) with
            | some c => simp [hnode, hent]
            | none =>
              simp only [hnode, Option.map_none']
              cases hfb : nh.fallback_handlers.find? (fun c => handlerAccepts c u) <;>
                simp [hfb, hent]
    · have hent' : s.nodes_handler_entered = false := Bool.eq_false_iff.mpr hent
      simp only [hent', Bool.false_eq_true, if_false]

/-- Counterexample to C1 as stated: on an exit match the router's matches
operation records the whole exit-handler list as the session's current
handler, which is not the accepting matcher (not a single handler at
all). -/
theorem C1_counterexample_exit_records_list :
    NodesHandler.check_update nhExit sExit "exit"
      = .ok ({ sExit with current_handler := .handlerList [exitH] }, true) ∧
    ∀ h : Handler,
      CurrentHandler.handlerList [exitH] ≠ CurrentHandler.handler h := by
  refine ⟨rfl, ?_⟩
  intro h hEq
  exact nomatch hEq

/-- C2 (code bug evidence): after matches elected an exit handler, handle
raises AttributeError (the stored current handler is a Python list, which
has no handle_update) and the session is still entered — the session is
never marked as not entered. -/
theorem C2_exit_handle_raises_and_stays_entered :
    (NodesHandler.handle_update 10 nhExit sExit2 "exit" []).err
      = some .attributeError ∧
    (NodesHandler.handle_update 10 nhExit sExit2 "exit" []).s.nodes_handler_entered
      = true :=
  ⟨rfl, rfl⟩

/-- C4: with history [A, B, C], two matched-and-handled back events return
the display node to A with history depth 1, and a third back event is not
matched at all (the back level is blocked by can_back at depth 1, and no
other level accepts), leaving the session unchanged. -/
theorem C4_back_twice_then_blocked :
    NodesHandler.check_update nhBack s40 "back" = .ok (s41, true) ∧
    r41.err = none ∧
    r41.s.display_node = some nodeB4 ∧
    r41.s.nodes_history = [nodeA4, nodeB4] ∧
    NodesHandler.check_update nhBack r41.s "back" = .ok (s43, true) ∧
    r43.err = none ∧
    r43.s.display_node = some nodeA4 ∧
    r43.s.nodes_history = [nodeA4] ∧
    NodesHandler.check_update nhBack r43.s "back" = .ok (r43.s, false) :=
  ⟨rfl, rfl, rfl, rfl, rfl, rfl, rfl, rfl, rfl⟩

/-- The inner SwitchNode.__init__ loop appends exactly the children's entry
handlers, in child order, to the gathered in-node handler list. -/
theorem switchChildStep_ih (row : List Node) (acc : SwAcc) :
    (row.foldl switchChildStep acc).ih
      = acc.ih ++ row.flatMap Node.entry_handlers := by
  induction row generalizing acc with
  | nil => simp
  | cons c t ihr =>
    rw [List.foldl_cons, ihr, List.flatMap_cons, ← List.append_assoc]
    rfl

/-- One outer-loop step of SwitchNode.__init__ appends exactly the row's
children's entry handlers. -/
theorem switchRowStep_ih_one (acc : SwAcc) (r : List Node) :
    (switchRowStep acc r).ih = acc.ih ++ r.flatMap Node.entry_handlers := by
  unfold switchRowStep
  rw [switchChildStep_ih]

/-- The outer SwitchNode.__init__ loop appends exactly the flattened
children's entry handlers, in declared row-major order. -/
theorem switchRowStep_ih (rows : List (List Node)) (acc : SwAcc) :
    (rows.foldl switchRowStep acc).ih
      = acc.ih ++ (rows.flatten).flatMap Node.entry_handlers := by
  induction rows generalizing acc with
  | nil => simp
  | cons r t ihr =>
    rw [List.foldl_cons, List.flatten_cons, ihr, switchRowStep_ih_one]
    simp [List.flatMap_append, List.append_assoc]

/-- C6: a menu (switch) node's in-node matcher list is the concatenation,
in declared row-major child order, of its children's entry matchers; and
for an event matching only child y's entry matcher, one handle call makes y
the session's display node, runs y's entry lifecycle, and sends y's
greeting exactly once. -/
theorem C6_switch_matchers_and_routing :
    (∀ (eh : List Handler) (hello g : Option ReplyItem) (rows : List (List Node))
        (kfn rk sw ab : Bool),
        (mkSwitchNode eh hello rows kfn rk g sw ab).inside_handlers
          = (rows.flatten).flatMap Node.entry_handlers) ∧
    Node.check_update nodeS6 s60 "y" = (s61, true) ∧
    r6.err = none ∧
    r6.s.display_node = some nodeY6 ∧
    r6.s.nodes_history = [nodeS6, nodeY6] ∧
    r6.s.is_inside_current_node = true ∧
    sentTextCount r6.log "hy" = 1 := by
  refine ⟨?_, rfl, rfl, rfl, rfl, rfl, rfl⟩
  intro eh hello g rows kfn rk sw ab
  show (rows.foldl switchRowStep
      { flat := [], kb := if kfn then some [] else none, ih := [] }).ih
    = (rows.flatten).flatMap Node.entry_handlers
  rw [switchRowStep_ih]
  rfl

/-- Counterexample to C3 as stated: the transition goes through the
dynamic pending-next-node override (the session's pendingNextNode is the
node that becomes the display node), yet the chosen node's entry-handler
callback is still invoked, because the source guards the callback on the
mere existence of the static successor, not on the transition having come
through it. -/
theorem C3_counterexample_callback_despite_override :
    s30.next_node = some nodeM3 ∧
    r3.err = none ∧
    r3.s.display_node = some nodeM3 ∧
    r3.log = [Out.ranHandler (handlerId cbH)] ∧
    nodeM3.entry_handlers = [cbH] :=
  ⟨rfl, rfl, rfl, rfl, rfl⟩

/-- On a node that is not a switch, the dispatched inside lifecycle is the
base one. -/
theorem handle_inside_not_switch (f : Nat) (n : Node) (s : UserStatus)
    (u : String) (log : List Out) (hsw : n.is_switch = false) :
    Node.handle_inside (f + 1) n s u log = Node.handle_inside_base f n s u log := by
  simp [Node.handle_inside, hsw]

/-- A failing goodbye send aborts the base inside lifecycle with its
error. -/
theorem handle_inside_base_goodbye_err (f : Nat) (n : Node) (s : UserStatus)
    (u : String) (log : List Out) (e : PyErr)
    (hg : (maybeReply n.parse_mode n.goodbye none).2 = some e) :
    (Node.handle_inside_base (f + 1) n s u log).err = some e := by
  rcases hG : maybeReply n.parse_mode n.goodbye none with ⟨gouts, gerr⟩
  rw [hG] at hg
  simp only at hg
  subst hg
  simp [Node.handle_inside_base, hG]

/-- The base inside lifecycle, when the goodbye send succeeds and the
chosen next node does not participate in history and auto-enters: leave the
body, display the chosen node, clear the pending next node, run the
chosen node's first entry-handler callback exactly when the static
successor field is set and the chosen node has entry handlers, then its
entry lifecycle. -/
theorem handle_inside_base_choice (f : Nat) (n : Node) (s : UserStatus)
    (u : String) (log : List Out) (m : Node)
    (hg : (maybeReply n.parse_mode n.goodbye none).2 = none)
    (hch : optOr s.next_node n.next_node = some m)
    (hpart : m.switch_on_this = false)
    (hauto : m.auto_entry = true) :
    Node.handle_inside_base (f + 1) n s u log =
      Node.handle_entry f m
        { s with is_inside_current_node := false, display_node := some m,
                 next_node := none }
        u
        ((log ++ (maybeReply n.parse_mode n.goodbye none).1.map Out.send) ++
          (match n.next_node, m.entry_handlers with
           | some _, h0 :: _ => [Out.ranHandler (handlerId h0)]
           | _, _ => [])) := by
  rcases hG : maybeReply n.parse_mode n.goodbye none with ⟨gouts, gerr⟩
  rw [hG] at hg
  simp only at hg
  subst hg
  simp only [Node.handle_inside_base, hG]
  simp only [hch, hpart, Bool.false_eq_true, if_false, hauto, if_true]
  cases hnx : n.next_node with
  | some k0 =>
    cases hent : m.entry_handlers with
    | nil => simp
    | cons h0 t => simp
  | none => simp

/-- The base inside lifecycle, when the goodbye send succeeds, no next node
is chosen and the node does not participate in history: the session leaves
and immediately re-enters the body, the pending next node is cleared, and
nothing else of the session changes. -/
theorem handle_inside_base_none (f : Nat) (n : Node) (s : UserStatus)
    (u : String) (log : List Out)
    (hg : (maybeReply n.parse_mode n.goodbye none).2 = none)
    (hch : optOr s.next_node n.next_node = none)
    (hpart : n.switch_on_this = false) :
    Node.handle_inside_base (f + 1) n s u log =
      ⟨{ s with is_inside_current_node := true, next_node := none },
       log ++ (maybeReply n.parse_mode n.goodbye none).1.map Out.send,
       none⟩ := by
  rcases hG : maybeReply n.parse_mode n.goodbye none with ⟨gouts, gerr⟩
  rw [hG] at hg
  simp only at hg
  subst hg
  simp only [Node.handle_inside_base, hG]
  simp only [hch, hpart, Bool.not_false, if_true]

/-- A failing greeting send aborts the entry lifecycle with its error. -/
theorem handle_entry_hello_err (f : Nat) (m : Node) (s : UserStatus)
    (u : String) (log : List Out) (e : PyErr)
    (hh : (maybeReply m.parse_mode m.hello (entryMarkup m s.nodes_history)).2
        = some e) :
    (Node.handle_entry (f + 1) m s u log).err = some e := by
  rcases hH : maybeReply m.parse_mode m.hello (entryMarkup m s.nodes_history)
    with ⟨houts, herr⟩
  rw [hH] at hh
  simp only at hh
  subst hh
  simp [Node.handle_entry, hH]

/-- The entry lifecycle of a node with in-node matchers, when the greeting
send succeeds: mark the session inside the node, append the greeting sends,
and stop (the body now awaits user input). -/
theorem handle_entry_parks (f : Nat) (m : Node) (s : UserStatus) (u : String)
    (log : List Out)
    (hie : m.inside_handlers.isEmpty = false)
    (hh : (maybeReply m.parse_mode m.hello (entryMarkup m s.nodes_history)).2
        = none) :
    Node.handle_entry (f + 1) m s u log =
      ⟨{ s with is_inside_current_node := true },
       log ++ (maybeReply m.parse_mode m.hello
         (entryMarkup m s.nodes_history)).1.map Out.send,
       none⟩ := by
  rcases hH : maybeReply m.parse_mode m.hello (entryMarkup m s.nodes_history)
    with ⟨houts, herr⟩
  rw [hH] at hh
  simp only at hh
  subst hh
  simp [Node.handle_entry, hH, hie]

/-- C3 (amended): in a completed run of the base inside lifecycle, the next
node is the session's pendingNextNode when set, otherwise the static
successor, and pendingNextNode is none by the end of the call; when the
chosen next node auto-enters (here with in-node matchers, so its entry
lifecycle parks there, and not participating in history), its entry-handler
callback is invoked exactly when the current node's static successor field
is set and the chosen node has entry handlers — regardless of whether the
transition came through the override — after which its full entry lifecycle
runs (it ends displayed and inside). -/
theorem C3_inside_next_choice_clear_and_callback
    (fuel : Nat) (n : Node) (s : UserStatus) (u : String) (m : Node)
    (hsw : n.is_switch = false)
    (hch : optOr s.next_node n.next_node = some m)
    (hauto : m.auto_entry = true)
    (hstop : m.inside_handlers ≠ [])
    (hpart : m.switch_on_this = false)
    (hok : (Node.handle_inside fuel n s u []).err = none) :
    (Node.handle_inside fuel n s u []).s.next_node = none ∧
    (Node.handle_inside fuel n s u []).s.display_node = some m ∧
    (Node.handle_inside fuel n s u []).s.is_inside_current_node = true ∧
    (∀ k : Nat, Out.ranHandler k ∈ (Node.handle_inside fuel n s u []).log ↔
        (n.next_node.isSome = true ∧
         ∃ h0 t, m.entry_handlers = h0 :: t ∧ k = handlerId h0)) := by
  have hie : m.inside_handlers.isEmpty = false := by
    cases hmih : m.inside_handlers with
    | nil => exact absurd hmih hstop
    | cons a b => rfl
  cases fuel with
  | zero => simp [Node.handle_inside] at hok
  | succ f =>
    rw [handle_inside_not_switch f n s u [] hsw] at hok ⊢
    cases f with
    | zero => simp [Node.handle_inside_base] at hok
    | succ f2 =>
      cases hG : (maybeReply n.parse_mode n.goodbye none).2 with
      | some e =>
        rw [handle_inside_base_goodbye_err f2 n s u [] e hG] at hok
        exact absurd hok (by simp)
      | none =>
        rw [handle_inside_base_choice f2 n s u [] m hG hch hpart hauto] at hok ⊢
        cases f2 with
        | zero => simp [Node.handle_entry] at hok
        | succ f3 =>
          cases hH : (maybeReply m.parse_mode m.hello
              (entryMarkup m s.nodes_history)).2 with
          | some e =>
            rw [handle_entry_hello_err f3 m ({ s with is_inside_current_node := false, display_node := some m, next_node := none }) u _ e hH] at hok
            exact absurd hok (by simp)
          | none =>
            rw [handle_entry_parks f3 m ({ s with is_inside_current_node := false, display_node := some m, next_node := none }) u _ hie hH]
            refine ⟨rfl, rfl, rfl, ?_⟩
            intro k
            cases hnx : n.next_node with
            | some k0 =>
              cases hent : m.entry_handlers with
              | nil => simp [ranHandler_not_mem_map_send]
              | cons h0 t =>
                simp [ranHandler_not_mem_map_send, hent, eq_comm]
            | none => simp [ranHandler_not_mem_map_send]

/-- Witness for C3 (amended) at the concrete override scenario: the run
completes, the pending next node ends cleared and the override target ends
displayed and inside. -/
theorem C3_inside_next_choice_clear_and_callback_witness :
    nodeN3.is_switch = false ∧
    optOr s30.next_node nodeN3.next_node = some nodeM3 ∧
    (Node.handle_inside 10 nodeN3 s30 "u" []).s.next_node = none ∧
    (Node.handle_inside 10 nodeN3 s30 "u" []).s.display_node = some nodeM3 ∧
    (Node.handle_inside 10 nodeN3 s30 "u" []).s.is_inside_current_node = true :=
  ⟨rfl, rfl,
   (C3_inside_next_choice_clear_and_callback 10 nodeN3 s30 "u" nodeM3 rfl rfl rfl
      (List.cons_ne_nil _ _) rfl rfl).1,
   (C3_inside_next_choice_clear_and_callback 10 nodeN3 s30 "u" nodeM3 rfl rfl rfl
      (List.cons_ne_nil _ _) rfl rfl).2.1,
   (C3_inside_next_choice_clear_and_callback 10 nodeN3 s30 "u" nodeM3 rfl rfl rfl
      (List.cons_ne_nil _ _) rfl rfl).2.2.1⟩

/-- C7: when a completed inside lifecycle of a non-switch node finds no
next node (no pending next node and no static successor) and the node does
not participate in history, the session is back inside the node's body, the
history, the display node and the (cleared) pending next node are
unchanged — so repeated matched events keep re-matching the node's own body
without ever advancing history. -/
theorem C7_terminal_leaf_reenters_body
    (fuel : Nat) (n : Node) (s : UserStatus) (u : String)
    (hsw : n.is_switch = false)
    (hpend : s.next_node = none)
    (hsucc : n.next_node = none)
    (hpart : n.switch_on_this = false)
    (hok : (Node.handle_inside fuel n s u []).err = none) :
    (Node.handle_inside fuel n s u []).s.is_inside_current_node = true ∧
    (Node.handle_inside fuel n s u []).s.nodes_history = s.nodes_history ∧
    (Node.handle_inside fuel n s u []).s.display_node = s.display_node ∧
    (Node.handle_inside fuel n s u []).s.next_node = none := by
  cases fuel with
  | zero => simp [Node.handle_inside] at hok
  | succ f =>
    rw [handle_inside_not_switch f n s u [] hsw] at hok ⊢
    cases f with
    | zero => simp [Node.handle_inside_base] at hok
    | succ f2 =>
      cases hG : (maybeReply n.parse_mode n.goodbye none).2 with
      | some e =>
        rw [handle_inside_base_goodbye_err f2 n s u [] e hG] at hok
        exact absurd hok (by simp)
      | none =>
        have hch : optOr s.next_node n.next_node = none := by
          rw [hpend, hsucc]; rfl
        rw [handle_inside_base_none f2 n s u [] hG hch hpart]
        exact ⟨rfl, rfl, rfl, rfl⟩

/-- Witness for C7 at the concrete terminal leaf. -/
theorem C7_terminal_leaf_reenters_body_witness :
    (Node.handle_inside 10 nodeT7 s70 "u" []).err = none ∧
    (Node.handle_inside 10 nodeT7 s70 "u" []).s.is_inside_current_node = true ∧
    (Node.handle_inside 10 nodeT7 s70 "u" []).s.nodes_history = s70.nodes_history :=
  ⟨rfl,
   (C7_terminal_leaf_reenters_body 10 nodeT7 s70 "u" rfl rfl rfl rfl rfl).1,
   (C7_terminal_leaf_reenters_body 10 nodeT7 s70 "u" rfl rfl rfl rfl rfl).2.1⟩

/-- Resolving row addresses only depends on the rows each address reads. -/
theorem resolveRows_congr (rs : List Nat) (h1 h2 : KbHeap)
    (hx : ∀ a ∈ rs, h1.readRow a = h2.readRow a) :
    h1.resolveRows rs = h2.resolveRows rs := by
  induction rs with
  | nil => rfl
  | cons a t ihr =>
    have ha : h1.readRow a = h2.readRow a := hx a (by simp)
    have ht : h1.resolveRows t = h2.resolveRows t :=
      ihr (fun b hb => hx b (by simp [hb]))
    simp only [KbHeap.resolveRows, ha, ht]

/-- Resolving all-valid row addresses yields the mapped row values. -/
theorem resolveRows_eq_map_of_lt (h : KbHeap) (rs : List Nat)
    (hwf : ∀ ra ∈ rs, ra < h.rows.length) :
    h.resolveRows rs = some (rs.map (fun ra => (h.readRow ra).getD [])) := by
  induction rs with
  | nil => rfl
  | cons a t ihr =>
    have ha : a < h.rows.length := hwf a (by simp)
    have hra : h.readRow a = some h.rows[a] :=
      List.getElem?_eq_getElem ha
    have ht := ihr (fun b hb => hwf b (by simp [hb]))
    simp only [KbHeap.resolveRows, hra, ht, List.map_cons]
    simp [hra]

/-- Freshly allocated consecutive row addresses resolve to the appended
rows. -/
theorem resolveRows_range' (kbs : List (List Nat))
    (pre newRows : List (List String)) :
    KbHeap.resolveRows ⟨pre ++ newRows, kbs⟩
        (List.range' pre.length newRows.length)
      = some newRows := by
  induction newRows generalizing pre with
  | nil => rfl
  | cons r t ihr =>
    have h1 : (⟨pre ++ r :: t, kbs⟩ : KbHeap).readRow pre.length = some r := by
      show (pre ++ r :: t)[pre.length]? = some r
      rw [List.getElem?_append_right (Nat.le_refl _)]
      simp
    have h2 : KbHeap.resolveRows ⟨pre ++ r :: t, kbs⟩
        (List.range' (pre.length + 1) t.length) = some t := by
      have := ihr (pre ++ [r])
      rw [List.append_assoc] at this
      simpa using this
    show KbHeap.resolveRows ⟨pre ++ r :: t, kbs⟩
        (List.range' pre.length (t.length + 1)) = some (r :: t)
    rw [show List.range' pre.length (t.length + 1)
        = pre.length :: List.range' (pre.length + 1) t.length from rfl]
    simp only [KbHeap.resolveRows, h1, h2]

/-- C10: reading the reply_keyboard property yields a deep copy — a fresh
keyboard object, distinct from the stored one, with freshly allocated rows,
structurally equal to the stored keyboard — so mutating any row of the
returned copy leaves the node's stored keyboard unchanged; when nothing is
stored, the property returns none. -/
theorem C10_reply_keyboard_deep_copy_frame
    (h : KbHeap) (a : Nat) (rs : List Nat)
    (hkb : h.readKb a = some rs)
    (hwf : ∀ ra ∈ rs, ra < h.rows.length) :
    reply_keyboard_get h none = (h, none) ∧
    (reply_keyboard_get h (some a)).2 = some h.kbs.length ∧
    h.kbs.length ≠ a ∧
    (reply_keyboard_get h (some a)).1.resolve h.kbs.length = h.resolve a ∧
    (reply_keyboard_get h (some a)).1.resolve a = h.resolve a ∧
    (∀ ra ∈ List.range' h.rows.length rs.length, h.rows.length ≤ ra) ∧
    (∀ i v, h.rows.length ≤ i →
      ((reply_keyboard_get h (some a)).1.writeRow i v).resolve a
        = h.resolve a) := by
  have halt : a < h.kbs.length := (List.getElem?_eq_some.mp hkb).1
  have hget : reply_keyboard_get h (some a)
      = (⟨h.rows ++ rs.map (fun ra => (h.readRow ra).getD []),
          h.kbs ++ [List.range' h.rows.length rs.length]⟩,
         some h.kbs.length) := by
    show deepcopyKb h a = _
    rw [deepcopyKb, hkb]
  have hreadKb2 : ∀ (rows2 : List (List String)),
      (⟨rows2, h.kbs ++ [List.range' h.rows.length rs.length]⟩ : KbHeap).readKb a
        = some rs := by
    intro rows2
    show (h.kbs ++ _)[a]? = some rs
    rw [List.getElem?_append_left halt]
    exact hkb
  have hres_pres : ∀ (rows2 : List (List String)),
      (∀ ra ∈ rs, (⟨rows2, h.kbs ++ [List.range' h.rows.length rs.length]⟩ :
          KbHeap).readRow ra = h.readRow ra) →
      (⟨rows2, h.kbs ++ [List.range' h.rows.length rs.length]⟩ : KbHeap).resolve a
        = h.resolve a := by
    intro rows2 hrr
    show KbHeap.resolve _ a = KbHeap.resolve h a
    rw [KbHeap.resolve, KbHeap.resolve, hreadKb2 rows2, hkb]
    exact resolveRows_congr rs _ h hrr
  refine ⟨rfl, by rw [hget], Nat.ne_of_gt halt, ?_, ?_, ?_, ?_⟩
  · have hrange := resolveRows_range'
      (h.kbs ++ [List.range' h.rows.length rs.length]) h.rows
      (rs.map (fun ra => (h.readRow ra).getD []))
    rw [List.length_map] at hrange
    have hrk : (⟨h.rows ++ rs.map (fun ra => (h.readRow ra).getD []),
        h.kbs ++ [List.range' h.rows.length rs.length]⟩ : KbHeap).readKb h.kbs.length
        = some (List.range' h.rows.length rs.length) :=
      List.getElem?_concat_length _ _
    simp only [hget, KbHeap.resolve, hrk, hkb, hrange,
      resolveRows_eq_map_of_lt h rs hwf]
  · rw [hget]
    exact hres_pres _ (fun ra hra =>
      List.getElem?_append_left (hwf ra hra))
  · intro ra hra
    exact (List.mem_range'_1.mp hra).1
  · intro i v hi
    rw [hget]
    show KbHeap.resolve
        (⟨(h.rows ++ rs.map (fun ra => (h.readRow ra).getD [])).set i v,
          h.kbs ++ [List.range' h.rows.length rs.length]⟩ : KbHeap) a = _
    refine hres_pres _ (fun ra hra => ?_)
    have hralt : ra < h.rows.length := hwf ra hra
    show ((h.rows ++ _).set i v)[ra]? = h.rows[ra]?
    rw [List.getElem?_set_ne (by omega)]
    exact List.getElem?_append_left hralt

/-- Witness for C10 at a concrete heap: one stored keyboard with two rows,
mutating a row of the returned copy leaves the stored keyboard unchanged. -/
theorem C10_reply_keyboard_deep_copy_frame_witness :
    (⟨[["a"], ["b"]], [[0, 1]]⟩ : KbHeap).readKb 0 = some [0, 1] ∧
    (∀ ra ∈ [0, 1], ra < 2) ∧
    (reply_keyboard_get ⟨[["a"], ["b"]], [[0, 1]]⟩ (some 0)).2 = some 1 ∧
    (∀ i v, 2 ≤ i →
      ((reply_keyboard_get ⟨[["a"], ["b"]], [[0, 1]]⟩ (some 0)).1.writeRow i v).resolve 0
        = (⟨[["a"], ["b"]], [[0, 1]]⟩ : KbHeap).resolve 0) :=
  ⟨rfl, by decide,
   (C10_reply_keyboard_deep_copy_frame ⟨[["a"], ["b"]], [[0, 1]]⟩ 0 [0, 1] rfl
      (by decide)).2.1,
   (C10_reply_keyboard_deep_copy_frame ⟨[["a"], ["b"]], [[0, 1]]⟩ 0 [0, 1] rfl
      (by decide)).2.2.2.2.2.2⟩
